import Mathlib

/-!
# Verification of the NourDemoDashboard backend message relay

A shallow embedding of `api_server.py`: the in-memory message history, the
WhatsApp/Instagram send handlers, the webhook verification handshake, the
webhook deliver handlers (with HMAC signature gate), and the Vapi
schedule-appointment tool-call handler.

Conventions of the embedding:
* a Python value read with `dict.get(key)` / `os.getenv(name)` is an
  `Option String` (`none` models the key being absent or the value `None`);
* Python truthiness of such a value (`if x:`) is `truthy`: `none` and the
  empty string are falsy;
* the remote HTTP calls (`requests.post`, Google calendar insert) are
  modelled by oracle arguments: the handler receives the remote status code
  (or an `Except` outcome) as an argument, and the payload it would send is
  returned as part of the result so that theorems can speak about it;
* HMAC-SHA256 is abstracted as an oracle `hmacHex : String → String → String`
  (secret, raw body ↦ hex digest); the handler only builds
  `"sha256=" ++ hmacHex secret body` and compares strings, exactly as the
  Python code compares `compare_digest(signature, expected_hash)`.
-/

/-- Python truthiness of an optional string: `None` and `""` are falsy. -/
def truthy : Option String → Bool
  | none => false
  | some s => s ≠ ""

/-- Python `a or b` on optional strings: the first operand if truthy, else the second. -/
def pyOr (a b : Option String) : Option String :=
  if truthy a then a else b

/-- Python f-string rendering of a possibly-`None` value (`None` prints as `"None"`). -/
def pyStr : Option String → String
  | none => "None"
  | some s => s

/-- A record of the in-memory `messages_store` list.  Inbound records carry
`from`, outbound records carry `to`; both are optional fields here. -/
structure Msg where
  id : Option String
  platform : String
  sender : Option String
  fromField : Option String
  toField : Option String
  text : Option String
  time : String
  avatar : String
  unread : Bool
deriving DecidableEq, Repr

/-- Outbound request body built by `send_whatsapp_message` for the Meta graph
API: either a template message or a freeform text message. -/
inductive WaPayload where
  | templateMsg (toNum tname langCode : String)
  | textMsg (toNum body : String)
deriving DecidableEq, Repr

/-- Outbound request body built by `send_instagram_message`: the handler only
ever builds a freeform text DM. -/
inductive IgPayload where
  | message (recipientId text : String)
deriving DecidableEq, Repr

/-- Result of a send endpoint: HTTP status, echoed stored record (on 200),
error body (on 4xx), the outbound payload actually built (`none` when the
remote call was skipped), and the new message history. -/
structure WaSendResult where
  status : Nat
  body : Option Msg
  errorMsg : Option String
  payload : Option WaPayload
  hist : List Msg
deriving DecidableEq, Repr

/-- Result of the Instagram send endpoint (same shape, Instagram payload). -/
structure IgSendResult where
  status : Nat
  body : Option Msg
  errorMsg : Option String
  payload : Option IgPayload
  hist : List Msg
deriving DecidableEq, Repr

/-- The history record stored by `send_whatsapp_message`
(`id = f"sent_{timestamp}"`, `sender = 'me'`, `unread = False`). -/
def sentWaMsg (now : Nat) (toNum textVal : Option String) : Msg :=
  { id := some ("sent_" ++ toString now), platform := "whatsapp",
    sender := some "me", fromField := none, toField := toNum,
    text := textVal, time := "Just now", avatar := "", unread := false }

/-- `POST /api/whatsapp/send` (`send_whatsapp_message` in `api_server.py`).

Arguments: `token`/`phoneId` are `VITE_WHATSAPP_ACCESS_TOKEN` /
`VITE_WHATSAPP_PHONE_ID`; `toNum`/`textArg`/`templArg`/`templNameArg`/`langArg`
are the request-body fields `to`/`text`/`template`/`templateName`/`language`;
`remoteStatus` is the status code the Meta API would answer (the handler only
logs it); `now` feeds the generated record id; `hist` is `messages_store`. -/
def sendWhatsappMessage (token phoneId toNum textArg templArg templNameArg langArg : Option String)
    (remoteStatus : Nat) (now : Nat) (hist : List Msg) : WaSendResult :=
  let _ := remoteStatus
  if ¬ truthy toNum then
    { status := 400, body := none, errorMsg := some "Missing to number",
      payload := none, hist := hist }
  else if ¬ (truthy token ∧ truthy phoneId) then
    -- "Missing Meta credentials, simulating send": no remote call, no text
    -- validation, no template substitution; the raw `text` field is stored.
    let m := sentWaMsg now toNum textArg
    { status := 200, body := some m, errorMsg := none, payload := none,
      hist := m :: hist }
  else
    let templateName := pyOr templArg templNameArg
    if truthy templateName then
      let tname := templateName.getD ""
      let payload := WaPayload.templateMsg (toNum.getD "") tname (langArg.getD "en_US")
      let m := sentWaMsg now toNum (some ("[Template: " ++ tname ++ "]"))
      { status := 200, body := some m, errorMsg := none, payload := some payload,
        hist := m :: hist }
    else if ¬ truthy textArg then
      { status := 400, body := none, errorMsg := some "Missing text or template",
        payload := none, hist := hist }
    else
      let payload := WaPayload.textMsg (toNum.getD "") (textArg.getD "")
      let m := sentWaMsg now toNum textArg
      { status := 200, body := some m, errorMsg := none, payload := some payload,
        hist := m :: hist }

/-- `POST /api/instagram/send` (`send_instagram_message` in `api_server.py`).

`templArg` models a `template` field in the request body; the handler never
reads it (there is no template support on this endpoint).  When credentials
are missing the remote call is skipped but the record is still stored. -/
def sendInstagramMessage (token igAccountId toId textArg templArg : Option String)
    (remoteStatus : Nat) (now : Nat) (hist : List Msg) : IgSendResult :=
  let _ := remoteStatus
  let _ := templArg
  if ¬ (truthy toId ∧ truthy textArg) then
    { status := 400, body := none, errorMsg := some "Missing to or text",
      payload := none, hist := hist }
  else
    let payload : Option IgPayload :=
      if ¬ (truthy token ∧ truthy igAccountId) then none
      else some (IgPayload.message (toId.getD "") (textArg.getD ""))
    let m : Msg :=
      { id := some ("sent_ig_" ++ toString now), platform := "instagram",
        sender := some "me", fromField := none, toField := toId,
        text := textArg, time := "Just now", avatar := "", unread := false }
    { status := 200, body := some m, errorMsg := none, payload := payload,
      hist := m :: hist }

/-! ## Webhook verification handshake (GET) -/

/-- The shared GET-handshake logic of `whatsapp_webhook` and
`verify_instagram_webhook`: `mode`/`token`/`challenge` are the query
parameters `hub.mode`/`hub.verify_token`/`hub.challenge`; `vt` is the
configured verify token.  Returns status and response body (`challenge` on
success; a `none` body with 200 models Flask failing on a `None` return). -/
def verifyWebhook (vt : String) (mode token challenge : Option String) :
    Nat × Option String :=
  if truthy mode ∧ truthy token then
    if mode = some "subscribe" ∧ token = some vt then (200, challenge)
    else (403, some "Forbidden")
  else (400, some "Bad Request")

/-- `os.getenv('WHATSAPP_VERIFY_TOKEN', 'novasync_secret')`. -/
def whatsappVerifyToken (env : Option String) : String :=
  env.getD "novasync_secret"

/-- `os.getenv('INSTAGRAM_VERIFY_TOKEN', os.getenv('WHATSAPP_VERIFY_TOKEN', 'nova_sync_secret'))`. -/
def instagramVerifyToken (envIg envWa : Option String) : String :=
  envIg.getD (envWa.getD "nova_sync_secret")

/-- `GET /api/whatsapp/webhook` (the GET branch of `whatsapp_webhook`). -/
def whatsappWebhookGet (env mode token challenge : Option String) :
    Nat × Option String :=
  verifyWebhook (whatsappVerifyToken env) mode token challenge

/-- `GET /api/instagram/webhook` (`verify_instagram_webhook`). -/
def instagramWebhookGet (envIg envWa mode token challenge : Option String) :
    Nat × Option String :=
  verifyWebhook (instagramVerifyToken envIg envWa) mode token challenge

/-! ## Webhook deliver handlers (POST) -/

/-- One element of `value['messages']` as read by the WhatsApp branch:
`msg.get('id')`, `msg.get('from')`, and `msg.get('text', {}).get('body', '')`
(`textBody = none` models a missing `text`/`body`, which the code turns
into `''`). -/
structure WaMessage where
  msgId : Option String
  fromNum : Option String
  textBody : Option String
deriving DecidableEq, Repr

/-- One `change.get('value', {})` of a WhatsApp entry: `contactName` is the
resolved `value.get('contacts', [{}])[0].get('profile', {}).get('name', …)`
lookup (`none` when the chain misses), `messages` is `value['messages']`
when the key is present. -/
structure WaChangeValue where
  contactName : Option String
  messages : Option (List WaMessage)
deriving DecidableEq, Repr

/-- An Instagram messaging event's `message` object: `text` and `mid`. -/
structure IgMessage where
  text : Option String
  mid : Option String
deriving DecidableEq, Repr

/-- One element of `entry['messaging']` as read by `process_instagram_event`:
`sender.id`, `recipient.id` and the optional `message` object. -/
structure IgEvent where
  senderId : Option String
  recipientId : Option String
  message : Option IgMessage
deriving DecidableEq, Repr

/-- One element of `data['entry']` as read by `whatsapp_webhook`'s POST
branch: `changes` is `entry.get('changes', [])` (default empty list) and
`messaging` is `entry['messaging']` when present. -/
structure WaEntry where
  changes : List WaChangeValue
  messaging : Option (List IgEvent)
deriving DecidableEq, Repr

/-- The JSON body of a POST to `/api/whatsapp/webhook`: top-level `object`
and `entry`. -/
structure WaData where
  object : Option String
  entry : Option (List WaEntry)
deriving DecidableEq, Repr

/-- `process_instagram_event`: store a record iff the event has a `message`
with non-empty text; otherwise the history is untouched. -/
def processInstagramEvent (msg : IgEvent) (hist : List Msg) : List Msg :=
  match msg.message with
  | none => hist
  | some mo =>
    let text := mo.text.getD ""
    if text = "" then hist
    else
      { id := mo.mid, platform := "instagram", sender := some "Instagram User",
        fromField := msg.senderId, toField := none, text := some text,
        time := "Just now", avatar := "", unread := true } :: hist

/-- The record stored for one inbound WhatsApp message and its insertion at
the head of the history (`messages_store.insert(0, new_msg)`). -/
def waStoreMessage (contactName : Option String) (m : WaMessage)
    (hist : List Msg) : List Msg :=
  { id := m.msgId, platform := "whatsapp",
    sender := contactName.orElse (fun _ => m.fromNum),
    fromField := m.fromNum, toField := none,
    text := some (m.textBody.getD ""), time := "Just now", avatar := "",
    unread := true } :: hist

/-- Process one WhatsApp change value (`if 'messages' in value: for msg in …`). -/
def waProcessValue (v : WaChangeValue) (hist : List Msg) : List Msg :=
  match v.messages with
  | none => hist
  | some ms => ms.foldl (fun h m => waStoreMessage v.contactName m h) hist

/-- Process one WhatsApp entry (`for change in entry.get('changes', [])`). -/
def waProcessEntry (e : WaEntry) (hist : List Msg) : List Msg :=
  e.changes.foldl (fun h v => waProcessValue v h) hist

/-- The object-type dispatch of `whatsapp_webhook`'s POST branch, after the
signature gate: `instagram` and `whatsapp_business_account` payloads are
walked and answered `EVENT_RECEIVED`/200, anything else is `Not Found`/404. -/
def waDispatch (data : WaData) (hist : List Msg) : Nat × String × List Msg :=
  if data.object = some "instagram" then
    match data.entry with
    | some es =>
      (200, "EVENT_RECEIVED",
        es.foldl (fun h e =>
          (e.messaging.getD []).foldl (fun h m => processInstagramEvent m h) h) hist)
    | none => (200, "EVENT_RECEIVED", hist)
  else if data.object = some "whatsapp_business_account" then
    match data.entry with
    | some es => (200, "EVENT_RECEIVED", es.foldl (fun h e => waProcessEntry e h) hist)
    | none => (200, "EVENT_RECEIVED", hist)
  else (404, "Not Found", hist)

/-- `POST /api/whatsapp/webhook` (the POST branch of `whatsapp_webhook`).

`hmacHex` abstracts `hmac.new(secret, body, sha256).hexdigest()`;
`appSecret` is the `META_APP_SECRET` environment value; `signature` is the
`X-Hub-Signature-256` header; `rawBody` is `request.get_data()`. -/
def whatsappWebhookPost (hmacHex : String → String → String)
    (appSecret signature : Option String) (rawBody : String)
    (data : WaData) (hist : List Msg) : Nat × String × List Msg :=
  match appSecret with
  | some secret =>
    if secret = "" then waDispatch data hist
    else
      match signature with
      | none => (403, "Signature Missing", hist)
      | some sig =>
        if sig = "" then (403, "Signature Missing", hist)
        else
          let expected := "sha256=" ++ hmacHex secret rawBody
          if sig = expected then waDispatch data hist
          else (403, "Forbidden", hist)
  | none => waDispatch data hist

/-- One `change` of an Instagram entry: `value['messages']` when present
(each element fed unchanged to `process_instagram_event`). -/
structure IgChangeValue where
  messages : Option (List IgEvent)
deriving DecidableEq, Repr

/-- One element of `data['entry']` as read by `instagram_webhook`:
`messaging` takes precedence over `changes` (the source's `if`/`elif`). -/
structure IgEntry where
  messaging : Option (List IgEvent)
  changes : Option (List IgChangeValue)
deriving DecidableEq, Repr

/-- The JSON body of a POST to `/api/instagram/webhook`; the handler never
reads `object`, it is carried to state claims about bodies that have one. -/
structure IgData where
  object : Option String
  entry : Option (List IgEntry)
deriving DecidableEq, Repr

/-- Process one Instagram entry: `if 'messaging' in entry … elif 'changes' in entry …`. -/
def igEntryProcess (e : IgEntry) (hist : List Msg) : List Msg :=
  match e.messaging with
  | some ms => ms.foldl (fun h m => processInstagramEvent m h) hist
  | none =>
    match e.changes with
    | some cs =>
      cs.foldl (fun h c =>
        match c.messages with
        | some ms => ms.foldl (fun h m => processInstagramEvent m h) h
        | none => h) hist
    | none => hist

/-- `POST /api/instagram/webhook` (`instagram_webhook`): walks `entry` when
present and always answers `EVENT_RECEIVED`/200 — it never inspects the
top-level `object` field. -/
def instagramWebhookPost (data : IgData) (hist : List Msg) :
    Nat × String × List Msg :=
  match data.entry with
  | some es => (200, "EVENT_RECEIVED", es.foldl (fun h e => igEntryProcess e h) hist)
  | none => (200, "EVENT_RECEIVED", hist)

/-! ## Vapi schedule-appointment tool call -/

/-- The clinic's fixed time zone (`CLINIC_TZ = "America/New_York"`). -/
def CLINIC_TZ : String := "America/New_York"

/-- A Python `datetime` as far as the booking code observes it: a naive
wall-clock component (in minutes, as produced by `datetime.fromisoformat`)
and the attached `tzinfo` (`none` = naive).  `timedelta(hours=1)` is
wall-clock arithmetic: it adds 60 to `wallMinutes` and keeps `tz`. -/
structure PyDateTime where
  wallMinutes : Int
  tz : Option String
deriving DecidableEq, Repr

/-- The calendar event body built by the booking branch of `vapi_webhook`. -/
structure CalendarEvent where
  summary : String
  description : String
  startDateTime : PyDateTime
  startTimeZone : String
  endDateTime : PyDateTime
  endTimeZone : String
deriving DecidableEq, Repr

/-- The parsed `arguments` of a `schedule_dental_appointment` tool call. -/
structure ScheduleArgs where
  name : Option String
  day : Option String
  time : Option String
deriving DecidableEq, Repr

/-- One element of `data['message']['toolCalls']`: `id`, `function.name`
and the (already JSON-decoded) `function.arguments`. -/
structure ToolCall where
  callId : String
  functionName : String
  functionArgs : ScheduleArgs
deriving DecidableEq, Repr

/-- The booking branch of `vapi_webhook` for one tool call.

`parseIso` abstracts `datetime.fromisoformat` (`error` = the `ValueError` it
raises, caught by the inner `try`); `insertEvent` abstracts
`service.events().insert(...).execute()` together with the service
construction (`ok idOpt` = the created event's `id` field, `error` = any
exception raised, also caught by the inner `try`).

Returns the `result` string handed back to Vapi, the calendar event body
that was built (if any), and `some idOpt` exactly when the insert succeeded. -/
def scheduleDentalAppointment (parseIso : String → Except String PyDateTime)
    (insertEvent : CalendarEvent → Except String (Option String))
    (args : ScheduleArgs) : String × Option CalendarEvent × Option (Option String) :=
  if ¬ (truthy args.day ∧ truthy args.time) then
    ("Error: Missing day or time.", none, none)
  else
    let day := args.day.getD ""
    let timeIso := args.time.getD ""
    match parseIso timeIso with
    | .error e => ("Failed to book calendar event: " ++ e, none, none)
    | .ok t0 =>
      -- "Vapi sends no timezone → assume Eastern Time"
      let startTime := if t0.tz = none then { t0 with tz := some CLINIC_TZ } else t0
      let endTime := { startTime with wallMinutes := startTime.wallMinutes + 60 }
      let ev : CalendarEvent :=
        { summary := "Dental Appt: " ++ pyStr args.name,
          description := "Booked via Vapi Voice Agent. Patient: " ++ pyStr args.name,
          startDateTime := startTime, startTimeZone := "America/New_York",
          endDateTime := endTime, endTimeZone := "America/New_York" }
      match insertEvent ev with
      | .ok idOpt =>
        ("Success! Appointment booked for " ++ day ++ " at " ++ timeIso
          ++ ". Event ID: " ++ pyStr idOpt, some ev, some idOpt)
      | .error e => ("Failed to book calendar event: " ++ e, some ev, none)

/-- The calendar event body `scheduleDentalAppointment` builds for patient
name `nm` once a naive start time with wall clock `w` has been parsed
(named here so proofs can refer to it once). -/
def bookedEvent (nm : Option String) (w : Int) : CalendarEvent :=
  { summary := "Dental Appt: " ++ pyStr nm,
    description := "Booked via Vapi Voice Agent. Patient: " ++ pyStr nm,
    startDateTime := { wallMinutes := w, tz := some CLINIC_TZ },
    startTimeZone := "America/New_York",
    endDateTime := { wallMinutes := w + 60, tz := some CLINIC_TZ },
    endTimeZone := "America/New_York" }

/-- `POST /vapi/tool/schedule-appointment` (`vapi_webhook`): when the body
carries `message.toolCalls`, every `schedule_dental_appointment` call is
booked and contributes a `{toolCallId, result}` pair (other tool names are
skipped, appending nothing); the response is always 200.  `toolCalls = none`
models a body without `message`/`toolCalls` (`{'status': 'ignored'}`). -/
def vapiWebhook (parseIso : String → Except String PyDateTime)
    (insertEvent : CalendarEvent → Except String (Option String))
    (toolCalls : Option (List ToolCall)) : Nat × Option (List (String × String)) :=
  match toolCalls with
  | some tcs =>
    (200, some (tcs.filterMap (fun tc =>
      if tc.functionName = "schedule_dental_appointment" then
        some (tc.callId, (scheduleDentalAppointment parseIso insertEvent tc.functionArgs).1)
      else none)))
  | none => (200, none)

/-- Modelled from the spec: the repository holds a second, near-duplicate
copy of `api_server.py` that is not under `src/`; per the spec (§4.3) that
copy, "after a successful booking, posts a fixed-shape notification payload
to one hardcoded downstream automation endpoint".  The URL constant below
stands for that hardcoded endpoint. -/
def downstreamAutomationUrl : String := "https://hooks.downstream-automation.example/booking"

/-- Modelled from the spec: the fixed-shape notification payload posted to
the downstream automation endpoint after a successful booking. -/
structure NotifyPayload where
  url : String
  patientName : String
  day : String
  time : String
  eventId : String
deriving DecidableEq, Repr

/-- Modelled from the spec: the booking handler of the repository copy that
is not under `src/`, which wraps the booking of `scheduleDentalAppointment`
and, on success, posts a `NotifyPayload` to `downstreamAutomationUrl`
best-effort (`notify` is the downstream call's outcome; "failures of this
notification are logged and otherwise ignored").  Returns the booking
result string and the payload posted (if any). -/
def scheduleWithNotification (parseIso : String → Except String PyDateTime)
    (insertEvent : CalendarEvent → Except String (Option String))
    (notify : NotifyPayload → Bool) (args : ScheduleArgs) :
    String × Option NotifyPayload :=
  match (scheduleDentalAppointment parseIso insertEvent args).2.2 with
  | some idOpt =>
    let p : NotifyPayload :=
      { url := downstreamAutomationUrl, patientName := pyStr args.name,
        day := args.day.getD "", time := args.time.getD "",
        eventId := pyStr idOpt }
    let _ := notify p
    ((scheduleDentalAppointment parseIso insertEvent args).1, some p)
  | none => ((scheduleDentalAppointment parseIso insertEvent args).1, none)

/-! ## Theorems -/

/-- C1: for a POST to `/api/whatsapp/webhook` with `META_APP_SECRET`
configured (non-empty), a missing `X-Hub-Signature-256` header, or one that
differs from `"sha256=" ++` the hex HMAC-SHA256 of the raw body under the
secret, is answered 403 and leaves the message history unchanged. -/
theorem whatsapp_signature_gate
    (hmacHex : String → String → String) (secret : String) (sig : Option String)
    (rawBody : String) (data : WaData) (hist : List Msg)
    (hsec : secret ≠ "")
    (hsig : sig = none ∨ sig ≠ some ("sha256=" ++ hmacHex secret rawBody)) :
    (whatsappWebhookPost hmacHex (some secret) sig rawBody data hist).1 = 403
    ∧ (whatsappWebhookPost hmacHex (some secret) sig rawBody data hist).2.2 = hist := by
  unfold whatsappWebhookPost
  cases sig with
  | none => simp [hsec]
  | some s =>
    have hs : s ≠ "sha256=" ++ hmacHex secret rawBody := by
      rcases hsig with h | h
      · exact absurd h (by simp)
      · intro he; exact h (by rw [he])
    by_cases hz : s = ""
    · simp [hsec, hz]
    · simp [hsec, hz, hs]

/-- Witness for C1 at a concrete input (secret `"s"`, no signature header). -/
theorem whatsapp_signature_gate_witness :
    (whatsappWebhookPost (fun _ _ => "aa") (some "s") none ""
      { object := none, entry := none } []).1 = 403
    ∧ (whatsappWebhookPost (fun _ _ => "aa") (some "s") none ""
      { object := none, entry := none } []).2.2 = [] :=
  whatsapp_signature_gate (fun _ _ => "aa") "s" none ""
    { object := none, entry := none } [] (by decide) (Or.inl rfl)

/-- C3 (counterexample): with `hub.mode` present but empty (`?hub.mode=`)
and a wrong non-empty token, both parameters are present and the subscribe
condition fails, yet the code answers 400, not the 403 the claim requires. -/
theorem verify_handshake_counterexample :
    (some "" : Option String).isSome = true
    ∧ (some "a" : Option String).isSome = true
    ∧ ¬ ((some "" : Option String) = some "subscribe"
        ∧ (some "a" : Option String) = some (whatsappVerifyToken none))
    ∧ (whatsappWebhookGet none (some "") (some "a") (some "c")).1 = 400
    ∧ (400 : Nat) ≠ 403 := by decide

/-- C3 (amended): on both webhook GET handshakes, when mode and token are
present *and non-empty*: subscribe + correct token echoes the challenge with
200, anything else is 403; when mode or token is absent or empty, 400. -/
theorem verify_handshake_amended
    (envW envIg envWa mode token challenge : Option String) (c : String) :
    ((truthy mode ∧ truthy token) →
      ((mode = some "subscribe" ∧ token = some (whatsappVerifyToken envW) →
          challenge = some c →
          whatsappWebhookGet envW mode token challenge = (200, some c))
        ∧ (¬ (mode = some "subscribe" ∧ token = some (whatsappVerifyToken envW)) →
          (whatsappWebhookGet envW mode token challenge).1 = 403)))
    ∧ (¬ (truthy mode ∧ truthy token) →
        (whatsappWebhookGet envW mode token challenge).1 = 400)
    ∧ ((truthy mode ∧ truthy token) →
      ((mode = some "subscribe" ∧ token = some (instagramVerifyToken envIg envWa) →
          challenge = some c →
          instagramWebhookGet envIg envWa mode token challenge = (200, some c))
        ∧ (¬ (mode = some "subscribe" ∧ token = some (instagramVerifyToken envIg envWa)) →
          (instagramWebhookGet envIg envWa mode token challenge).1 = 403)))
    ∧ (¬ (truthy mode ∧ truthy token) →
        (instagramWebhookGet envIg envWa mode token challenge).1 = 400) := by
  refine ⟨fun ht => ⟨fun hm hc => ?_, fun hm => ?_⟩, fun ht => ?_,
    fun ht => ⟨fun hm hc => ?_, fun hm => ?_⟩, fun ht => ?_⟩
  · unfold whatsappWebhookGet verifyWebhook
    rw [if_pos ht, if_pos hm, hc]
  · unfold whatsappWebhookGet verifyWebhook
    rw [if_pos ht, if_neg hm]
  · unfold whatsappWebhookGet verifyWebhook
    rw [if_neg ht]
  · unfold instagramWebhookGet verifyWebhook
    rw [if_pos ht, if_pos hm, hc]
  · unfold instagramWebhookGet verifyWebhook
    rw [if_pos ht, if_neg hm]
  · unfold instagramWebhookGet verifyWebhook
    rw [if_neg ht]

/-- Witness for the amended C3: successful handshakes on both endpoints with
the default verify tokens. -/
theorem verify_handshake_amended_witness :
    whatsappWebhookGet none (some "subscribe") (some "novasync_secret") (some "chal")
      = (200, some "chal")
    ∧ instagramWebhookGet none none (some "subscribe") (some "nova_sync_secret") (some "chal2")
      = (200, some "chal2") :=
  ⟨((verify_handshake_amended none none none (some "subscribe") (some "novasync_secret")
      (some "chal") "chal").1 (by decide)).1 (by decide) rfl,
   ((verify_handshake_amended none none none (some "subscribe") (some "nova_sync_secret")
      (some "chal2") "chal2").2.2.1 (by decide)).1 (by decide) rfl⟩

/-- C6 (counterexample): the Instagram deliver endpoint answers an
`{"object": "unknown_type"}` body with 200, not the 404 the claim asserts
for "every webhook deliver endpoint" (its history is still unchanged). -/
theorem unknown_object_counterexample :
    (instagramWebhookPost { object := some "unknown_type", entry := none } []).1 = 200
    ∧ (instagramWebhookPost { object := some "unknown_type", entry := none } []).2.2 = []
    ∧ (200 : Nat) ≠ 404 := by decide

/-- C6 (amended): the WhatsApp deliver endpoint answers 404 with history
unchanged for any object type other than `whatsapp_business_account` /
`instagram` (shown with no secret configured, so the signature gate is
skipped); the Instagram deliver endpoint never inspects the object type and
answers 200, with history unchanged when the body carries no `entry`. -/
theorem unknown_object_amended
    (hmacHex : String → String → String) (sig : Option String) (raw : String)
    (data : WaData) (hist : List Msg) (igdata : IgData) (hist₂ : List Msg)
    (h1 : data.object ≠ some "instagram")
    (h2 : data.object ≠ some "whatsapp_business_account") :
    whatsappWebhookPost hmacHex none sig raw data hist = (404, "Not Found", hist)
    ∧ (igdata.entry = none →
        instagramWebhookPost igdata hist₂ = (200, "EVENT_RECEIVED", hist₂)) := by
  constructor
  · unfold whatsappWebhookPost waDispatch
    rw [if_neg h1, if_neg h2]
  · intro he
    unfold instagramWebhookPost
    rw [he]

/-- Witness for the amended C6 at the body `{"object": "unknown_type"}`. -/
theorem unknown_object_amended_witness :
    whatsappWebhookPost (fun _ _ => "aa") none none ""
      { object := some "unknown_type", entry := none } []
      = (404, "Not Found", [])
    ∧ instagramWebhookPost { object := some "unknown_type", entry := none } []
      = (200, "EVENT_RECEIVED", []) :=
  ⟨(unknown_object_amended (fun _ _ => "aa") none ""
      { object := some "unknown_type", entry := none } []
      { object := some "unknown_type", entry := none } [] (by decide) (by decide)).1,
   (unknown_object_amended (fun _ _ => "aa") none ""
      { object := some "unknown_type", entry := none } []
      { object := some "unknown_type", entry := none } [] (by decide) (by decide)).2 rfl⟩

/-- C10: on `/api/whatsapp/send` with a `to` number, missing WhatsApp
credentials skip the remote call (no payload), skip both the missing-text
validation and the template substitution, and still prepend a sender-`"me"`
record whose text is the raw `text` field (possibly null), answering 200
with that record. -/
theorem missing_creds_send
    (token phoneId toNum textArg templArg templNameArg langArg : Option String)
    (r now : Nat) (hist : List Msg)
    (hto : truthy toNum) (hcreds : ¬ (truthy token ∧ truthy phoneId)) :
    sendWhatsappMessage token phoneId toNum textArg templArg templNameArg langArg r now hist
      = { status := 200, body := some (sentWaMsg now toNum textArg),
          errorMsg := none, payload := none,
          hist := sentWaMsg now toNum textArg :: hist } := by
  unfold sendWhatsappMessage
  rw [if_neg (by simp [hto]), if_pos hcreds]

/-- Witness for C10: template-only request with no credentials stores a
record with null text. -/
theorem missing_creds_send_witness :
    sendWhatsappMessage none none (some "+15550001111") none (some "hello_world") none none 200 5 []
      = { status := 200, body := some (sentWaMsg 5 (some "+15550001111") none),
          errorMsg := none, payload := none,
          hist := [sentWaMsg 5 (some "+15550001111") none] } :=
  missing_creds_send none none (some "+15550001111") none (some "hello_world") none none
    200 5 [] (by decide) (by decide)

/-- C9 (counterexample): with no WhatsApp credentials configured, a request
with a `to` number and template `hello_world` stores a record whose text is
null, not `"[Template: hello_world]"`. -/
theorem template_history_text_counterexample :
    (sendWhatsappMessage none none (some "+15551234567") none (some "hello_world")
      none none 200 0 []).hist.map Msg.text = [none]
    ∧ (none : Option String) ≠ some "[Template: hello_world]" := by decide

/-- C9 (amended): provided the WhatsApp access token and phone id are
configured (non-empty), a send with a `to` number and template `hello_world`
prepends a record whose text is `"[Template: hello_world]"`. -/
theorem template_history_text_amended
    (token phoneId toNum langArg textArg : Option String)
    (r now : Nat) (hist : List Msg)
    (htok : truthy token) (hpid : truthy phoneId) (hto : truthy toNum) :
    ∃ m, (sendWhatsappMessage token phoneId toNum textArg (some "hello_world") none
            langArg r now hist).hist = m :: hist
      ∧ m.text = some "[Template: hello_world]" := by
  refine ⟨sentWaMsg now toNum (some "[Template: hello_world]"), ?_, rfl⟩
  unfold sendWhatsappMessage
  rw [if_neg (by simp [hto]), if_neg (by simp [htok, hpid]),
    if_pos (by simp [pyOr, truthy])]
  rfl

/-- Witness for the amended C9 with concrete credentials. -/
theorem template_history_text_amended_witness :
    (sendWhatsappMessage (some "t") (some "p") (some "+15551234567") none
      (some "hello_world") none none 200 3 []).hist.map Msg.text
      = [some "[Template: hello_world]"] := by
  obtain ⟨m, h1, h2⟩ := template_history_text_amended (some "t") (some "p")
    (some "+15551234567") none none 200 3 [] (by decide) (by decide) (by decide)
  rw [h1, List.map_cons, h2]
  rfl

/-- C7 (counterexample): the Instagram send endpoint does not accept a
template parameter: a `to` + `template` request without text is rejected 400,
a supplied template field is ignored entirely, and the outbound payload is
always a freeform text message. -/
theorem template_support_counterexample :
    (sendInstagramMessage (some "tok") (some "acct") (some "user1") none
      (some "hello_world") 200 0 []).status = 400
    ∧ sendInstagramMessage (some "tok") (some "acct") (some "user1") (some "hi")
        (some "hello_world") 200 0 []
      = sendInstagramMessage (some "tok") (some "acct") (some "user1") (some "hi")
        none 200 0 []
    ∧ (sendInstagramMessage (some "tok") (some "acct") (some "user1") (some "hi")
        (some "hello_world") 200 0 []).payload
      = some (IgPayload.message "user1" "hi") := by decide

/-- C7 (amended): only the WhatsApp send endpoint accepts an optional
template parameter — when one is supplied the outbound request is a templated
message (name + language, default `en_US`) carrying no free text, otherwise
it is a freeform text message; the Instagram send endpoint ignores any
template field and always builds a freeform text message. -/
theorem template_support_amended
    (token phoneId toNum textArg templArg templNameArg langArg
      igTok igAcct toId igText t₁ t₂ : Option String)
    (r now : Nat) (hist : List Msg)
    (htok : truthy token) (hpid : truthy phoneId) (hto : truthy toNum) :
    (truthy (pyOr templArg templNameArg) →
      (sendWhatsappMessage token phoneId toNum textArg templArg templNameArg
          langArg r now hist).payload
        = some (WaPayload.templateMsg (toNum.getD "")
            ((pyOr templArg templNameArg).getD "") (langArg.getD "en_US")))
    ∧ (¬ truthy (pyOr templArg templNameArg) → truthy textArg →
      (sendWhatsappMessage token phoneId toNum textArg templArg templNameArg
          langArg r now hist).payload
        = some (WaPayload.textMsg (toNum.getD "") (textArg.getD "")))
    ∧ sendInstagramMessage igTok igAcct toId igText t₁ r now hist
      = sendInstagramMessage igTok igAcct toId igText t₂ r now hist
    ∧ (truthy toId → truthy igText →
      (sendInstagramMessage igTok igAcct toId igText t₁ r now hist).payload
        = if ¬ (truthy igTok ∧ truthy igAcct) then none
          else some (IgPayload.message (toId.getD "") (igText.getD ""))) := by
  refine ⟨fun htm => ?_, fun htm htx => ?_, rfl, fun hti htx => ?_⟩
  · unfold sendWhatsappMessage
    rw [if_neg (by simp [hto]), if_neg (by simp [htok, hpid]), if_pos htm]
  · unfold sendWhatsappMessage
    rw [if_neg (by simp [hto]), if_neg (by simp [htok, hpid]), if_neg htm,
      if_neg (by simp [htx])]
  · unfold sendInstagramMessage
    rw [if_neg (by simp [hti, htx])]

/-- Witness for the amended C7: a templated WhatsApp send builds the
template payload, and an Instagram send with a template field builds plain
text. -/
theorem template_support_amended_witness :
    (sendWhatsappMessage (some "t") (some "p") (some "+15551230000") none
      (some "hello_world") none none 200 4 []).payload
      = some (WaPayload.templateMsg "+15551230000" "hello_world" "en_US")
    ∧ (sendInstagramMessage (some "it") (some "ia") (some "user9") (some "yo")
      (some "hello_world") 200 4 []).payload
      = some (IgPayload.message "user9" "yo") := by
  have h := template_support_amended (some "t") (some "p") (some "+15551230000") none
    (some "hello_world") none none (some "it") (some "ia") (some "user9") (some "yo")
    (some "hello_world") none 200 4 [] (by decide) (by decide) (by decide)
  exact ⟨h.1 (by decide), by rw [h.2.2.2 (by decide) (by decide)]; decide⟩

/-- C5: on both send endpoints the result does not depend on the remote
call's status at all, and every request that passes input validation
(status 200) prepends a sender-`"me"` record to the history. -/
theorem send_history_unconditional
    (token phoneId toNum textArg templArg templNameArg langArg
      igTok igAcct toId igText igTempl : Option String)
    (r₁ r₂ now : Nat) (hist : List Msg) :
    sendWhatsappMessage token phoneId toNum textArg templArg templNameArg langArg r₁ now hist
      = sendWhatsappMessage token phoneId toNum textArg templArg templNameArg langArg r₂ now hist
    ∧ ((sendWhatsappMessage token phoneId toNum textArg templArg templNameArg langArg r₁ now hist).status = 200 →
        ∃ m, (sendWhatsappMessage token phoneId toNum textArg templArg templNameArg langArg r₁ now hist).hist
            = m :: hist
          ∧ m.sender = some "me")
    ∧ sendInstagramMessage igTok igAcct toId igText igTempl r₁ now hist
      = sendInstagramMessage igTok igAcct toId igText igTempl r₂ now hist
    ∧ ((sendInstagramMessage igTok igAcct toId igText igTempl r₁ now hist).status = 200 →
        ∃ m, (sendInstagramMessage igTok igAcct toId igText igTempl r₁ now hist).hist
            = m :: hist
          ∧ m.sender = some "me") := by
  refine ⟨rfl, fun h200 => ?_, rfl, fun h200 => ?_⟩
  · unfold sendWhatsappMessage at h200 ⊢
    dsimp only at h200 ⊢
    split_ifs at h200 ⊢ <;>
      first
        | exact ⟨_, rfl, rfl⟩
        | simp at h200
  · unfold sendInstagramMessage at h200 ⊢
    dsimp only at h200 ⊢
    split_ifs at h200 ⊢ <;>
      first
        | exact ⟨_, rfl, rfl⟩
        | simp at h200

/-- Witness for C5: concrete valid sends on both endpoints store a
sender-`"me"` record (here with a remote status of 500). -/
theorem send_history_unconditional_witness :
    (sendWhatsappMessage (some "t") (some "p") (some "+15551230000") (some "hi")
      none none none 500 9 []).hist.map Msg.sender = [some "me"]
    ∧ (sendInstagramMessage (some "t") (some "a") (some "u") (some "hey")
      none 500 9 []).hist.map Msg.sender = [some "me"] := by
  have h := send_history_unconditional (some "t") (some "p") (some "+15551230000")
    (some "hi") none none none (some "t") (some "a") (some "u") (some "hey") none
    500 500 9 []
  obtain ⟨m, hm, hs⟩ := h.2.1 (by decide)
  obtain ⟨m', hm', hs'⟩ := h.2.2.2 (by decide)
  constructor
  · rw [hm, List.map_cons, hs]; rfl
  · rw [hm', List.map_cons, hs']; rfl

/-- Folding a step that only prepends records keeps the old history as a
suffix. -/
theorem foldl_suffix_preserved {α : Type} (g : List Msg → α → List Msg)
    (hg : ∀ h a, ∃ pre, g h a = pre ++ h) :
    ∀ (l : List α) (h : List Msg), ∃ pre, l.foldl g h = pre ++ h := by
  intro l
  induction l with
  | nil => exact fun h => ⟨[], rfl⟩
  | cons a t ih =>
    intro h
    obtain ⟨p1, hp1⟩ := hg h a
    obtain ⟨p2, hp2⟩ := ih (g h a)
    exact ⟨p2 ++ p1, by rw [List.foldl_cons, hp2, hp1, List.append_assoc]⟩

/-- `process_instagram_event` leaves the history a suffix of the result. -/
theorem processInstagramEvent_suffix (m : IgEvent) (h : List Msg) :
    ∃ pre, processInstagramEvent m h = pre ++ h := by
  unfold processInstagramEvent
  cases m.message with
  | none => exact ⟨[], rfl⟩
  | some mo =>
    dsimp only
    by_cases ht : mo.text.getD "" = ""
    · rw [if_pos ht]; exact ⟨[], rfl⟩
    · rw [if_neg ht]; exact ⟨[_], rfl⟩

/-- The inbound WhatsApp change-value walk leaves the history a suffix. -/
theorem waProcessValue_suffix (v : WaChangeValue) (h : List Msg) :
    ∃ pre, waProcessValue v h = pre ++ h := by
  unfold waProcessValue
  cases v.messages with
  | none => exact ⟨[], rfl⟩
  | some ms => exact foldl_suffix_preserved _ (fun h m => ⟨[_], rfl⟩) ms h

/-- The inbound WhatsApp entry walk leaves the history a suffix. -/
theorem waProcessEntry_suffix (e : WaEntry) (h : List Msg) :
    ∃ pre, waProcessEntry e h = pre ++ h :=
  foldl_suffix_preserved _ (fun h v => waProcessValue_suffix v h) e.changes h

/-- The object-type dispatch of the WhatsApp webhook leaves the history a
suffix of the result whatever the payload. -/
theorem waDispatch_suffix (data : WaData) (hist : List Msg) :
    ∃ pre, (waDispatch data hist).2.2 = pre ++ hist := by
  unfold waDispatch
  by_cases h1 : data.object = some "instagram"
  · rw [if_pos h1]
    cases data.entry with
    | none => exact ⟨[], rfl⟩
    | some es =>
      exact foldl_suffix_preserved _
        (fun h e => foldl_suffix_preserved _
          (fun h m => processInstagramEvent_suffix m h) (e.messaging.getD []) h) es hist
  · rw [if_neg h1]
    by_cases h2 : data.object = some "whatsapp_business_account"
    · rw [if_pos h2]
      cases data.entry with
      | none => exact ⟨[], rfl⟩
      | some es =>
        exact foldl_suffix_preserved _ (fun h e => waProcessEntry_suffix e h) es hist
    · rw [if_neg h2]
      exact ⟨[], rfl⟩

/-- The Instagram entry walk leaves the history a suffix. -/
theorem igEntryProcess_suffix (e : IgEntry) (h : List Msg) :
    ∃ pre, igEntryProcess e h = pre ++ h := by
  unfold igEntryProcess
  cases e.messaging with
  | some ms =>
    exact foldl_suffix_preserved _ (fun h m => processInstagramEvent_suffix m h) ms h
  | none =>
    cases e.changes with
    | none => exact ⟨[], rfl⟩
    | some cs =>
      refine foldl_suffix_preserved _ (fun h c => ?_) cs h
      cases c.messages with
      | none => exact ⟨[], rfl⟩
      | some ms =>
        exact foldl_suffix_preserved _ (fun h m => processInstagramEvent_suffix m h) ms h

/-- C4: every history-mutating operation — inbound WhatsApp delivery,
inbound Instagram delivery, WhatsApp send, Instagram send — only prepends:
the previous history is always an unchanged suffix of the new one, and each
individual stored record goes in at index 0. -/
theorem history_prepend_only
    (hmacHex : String → String → String) (appSecret sig : Option String) (raw : String)
    (data : WaData) (igdata : IgData)
    (token phoneId toNum textArg templArg templNameArg langArg
      igTok igAcct toId igText igTempl : Option String)
    (r now : Nat) (hist : List Msg) :
    (∃ pre, (whatsappWebhookPost hmacHex appSecret sig raw data hist).2.2 = pre ++ hist)
    ∧ (∃ pre, (instagramWebhookPost igdata hist).2.2 = pre ++ hist)
    ∧ (∃ pre, (sendWhatsappMessage token phoneId toNum textArg templArg templNameArg
        langArg r now hist).hist = pre ++ hist)
    ∧ (∃ pre, (sendInstagramMessage igTok igAcct toId igText igTempl r now hist).hist
        = pre ++ hist)
    ∧ (∀ cn m h, ∃ rec, waStoreMessage cn m h = rec :: h)
    ∧ (∀ m h, processInstagramEvent m h = h
        ∨ ∃ rec, processInstagramEvent m h = rec :: h) := by
  refine ⟨?_, ?_, ?_, ?_, fun cn m h => ⟨_, rfl⟩, fun m h => ?_⟩
  · unfold whatsappWebhookPost
    cases appSecret with
    | none => exact waDispatch_suffix data hist
    | some secret =>
      dsimp only
      by_cases hz : secret = ""
      · rw [if_pos hz]; exact waDispatch_suffix data hist
      · rw [if_neg hz]
        cases sig with
        | none => exact ⟨[], rfl⟩
        | some s =>
          dsimp only
          by_cases hs : s = ""
          · rw [if_pos hs]; exact ⟨[], rfl⟩
          · rw [if_neg hs]
            by_cases he : s = "sha256=" ++ hmacHex secret raw
            · rw [if_pos he]; exact waDispatch_suffix data hist
            · rw [if_neg he]; exact ⟨[], rfl⟩
  · unfold instagramWebhookPost
    cases igdata.entry with
    | none => exact ⟨[], rfl⟩
    | some es =>
      exact foldl_suffix_preserved _ (fun h e => igEntryProcess_suffix e h) es hist
  · unfold sendWhatsappMessage
    dsimp only
    split_ifs <;> first | exact ⟨[], rfl⟩ | exact ⟨[_], rfl⟩
  · unfold sendInstagramMessage
    dsimp only
    split_ifs <;> first | exact ⟨[], rfl⟩ | exact ⟨[_], rfl⟩
  · unfold processInstagramEvent
    cases m.message with
    | none => exact Or.inl rfl
    | some mo =>
      dsimp only
      by_cases ht : mo.text.getD "" = ""
      · rw [if_pos ht]; exact Or.inl rfl
      · rw [if_neg ht]; exact Or.inr ⟨_, rfl⟩


/-- C2: a `schedule_dental_appointment` tool call whose `time` parses as an
ISO-8601 timestamp with no offset books an event whose start is that
wall-clock time in the fixed zone `America/New_York`, whose end is exactly
one hour later, and whose summary is `"Dental Appt: {name}"`; the success
string (containing `"Success!"` and the created event id) and any booking
failure are both returned as the `result` text of a 200 response. -/
theorem schedule_booking_correct
    (parseIso : String → Except String PyDateTime)
    (insertEvent : CalendarEvent → Except String (Option String))
    (args : ScheduleArgs) (d ts : String) (w : Int)
    (hday : args.day = some d) (hd : d ≠ "")
    (htime : args.time = some ts) (hts : ts ≠ "")
    (hparse : parseIso ts = .ok { wallMinutes := w, tz := none }) :
    ∃ ev : CalendarEvent,
      (scheduleDentalAppointment parseIso insertEvent args).2.1 = some ev
      ∧ ev.startDateTime = { wallMinutes := w, tz := some CLINIC_TZ }
      ∧ ev.startTimeZone = "America/New_York"
      ∧ ev.endDateTime = { wallMinutes := w + 60, tz := some CLINIC_TZ }
      ∧ ev.endTimeZone = "America/New_York"
      ∧ ev.summary = "Dental Appt: " ++ pyStr args.name
      ∧ (∀ idOpt, insertEvent ev = .ok idOpt →
          (scheduleDentalAppointment parseIso insertEvent args).1
            = "Success! Appointment booked for " ++ d ++ " at " ++ ts
              ++ ". Event ID: " ++ pyStr idOpt)
      ∧ (∀ e, insertEvent ev = .error e →
          (scheduleDentalAppointment parseIso insertEvent args).1
            = "Failed to book calendar event: " ++ e)
      ∧ (∀ (tcs : List ToolCall) (tc : ToolCall), tc ∈ tcs →
          tc.functionName = "schedule_dental_appointment" → tc.functionArgs = args →
          (vapiWebhook parseIso insertEvent (some tcs)).1 = 200
          ∧ ∃ rs, (vapiWebhook parseIso insertEvent (some tcs)).2 = some rs
              ∧ (tc.callId, (scheduleDentalAppointment parseIso insertEvent args).1) ∈ rs) := by
  have hsched : scheduleDentalAppointment parseIso insertEvent args
      = ((match insertEvent (bookedEvent args.name w) with
          | .ok idOpt =>
            ("Success! Appointment booked for " ++ d ++ " at " ++ ts
              ++ ". Event ID: " ++ pyStr idOpt, some (bookedEvent args.name w), some idOpt)
          | .error e =>
            ("Failed to book calendar event: " ++ e, some (bookedEvent args.name w), none))
        : String × Option CalendarEvent × Option (Option String)) := by
    unfold scheduleDentalAppointment bookedEvent
    rw [hday, htime, if_neg (by simp [truthy, hd, hts])]
    simp only [Option.getD_some]
    rw [hparse]
    dsimp only
    rw [if_pos rfl]
  refine ⟨bookedEvent args.name w, ?_, rfl, rfl, rfl, rfl, rfl, ?_, ?_, ?_⟩
  · rw [hsched]
    cases insertEvent (bookedEvent args.name w) with
    | ok idOpt => rfl
    | error e => rfl
  · intro idOpt hins
    rw [hsched, hins]
  · intro e hins
    rw [hsched, hins]
  · intro tcs tc htc hfn hargs
    refine ⟨rfl, _, rfl, ?_⟩
    refine List.mem_filterMap.mpr ⟨tc, htc, ?_⟩
    rw [hfn, hargs]
    simp

/-- Witness for C2: the spec's scenario (`Alice`, `2024-05-01T14:00:00`, no
offset) at concrete parse/insert oracles produces the success string with
the created event id. -/
theorem schedule_booking_correct_witness :
    (scheduleDentalAppointment
      (fun s => if s = "2024-05-01T14:00:00" then .ok { wallMinutes := 840, tz := none }
        else .error "bad")
      (fun _ => .ok (some "evt123"))
      { name := some "Alice", day := some "2024-05-01",
        time := some "2024-05-01T14:00:00" }).1
      = "Success! Appointment booked for 2024-05-01 at 2024-05-01T14:00:00. Event ID: evt123" := by
  obtain ⟨ev, _, _, _, _, _, _, hok, _, _⟩ := schedule_booking_correct
    (fun s => if s = "2024-05-01T14:00:00" then .ok { wallMinutes := 840, tz := none }
      else .error "bad")
    (fun _ => .ok (some "evt123"))
    { name := some "Alice", day := some "2024-05-01", time := some "2024-05-01T14:00:00" }
    "2024-05-01" "2024-05-01T14:00:00" 840 rfl (by decide) rfl (by decide) rfl
  exact hok (some "evt123") rfl

/-- C8: the booking handler of the repository copy not under `src/`
(modelled from the spec) posts one fixed-shape notification payload to the
hardcoded downstream automation endpoint after a successful booking, and the
notification's outcome — including failure — never changes the booking
response returned to the caller. -/
theorem booking_notification_best_effort
    (parseIso : String → Except String PyDateTime)
    (insertEvent : CalendarEvent → Except String (Option String))
    (n₁ n₂ : NotifyPayload → Bool) (args : ScheduleArgs) :
    (scheduleWithNotification parseIso insertEvent n₁ args).1
      = (scheduleDentalAppointment parseIso insertEvent args).1
    ∧ (scheduleWithNotification parseIso insertEvent n₁ args).1
      = (scheduleWithNotification parseIso insertEvent n₂ args).1
    ∧ (∀ idOpt, (scheduleDentalAppointment parseIso insertEvent args).2.2 = some idOpt →
        (scheduleWithNotification parseIso insertEvent n₁ args).2
          = some { url := downstreamAutomationUrl, patientName := pyStr args.name,
                   day := args.day.getD "", time := args.time.getD "",
                   eventId := pyStr idOpt })
    ∧ ((scheduleDentalAppointment parseIso insertEvent args).2.2 = none →
        (scheduleWithNotification parseIso insertEvent n₁ args).2 = none) := by
  refine ⟨?_, ?_, fun idOpt h => ?_, fun h => ?_⟩
  · unfold scheduleWithNotification
    cases (scheduleDentalAppointment parseIso insertEvent args).2.2 with
    | none => rfl
    | some idOpt => rfl
  · unfold scheduleWithNotification
    cases (scheduleDentalAppointment parseIso insertEvent args).2.2 with
    | none => rfl
    | some idOpt => rfl
  · unfold scheduleWithNotification
    simp only [h]
  · unfold scheduleWithNotification
    simp only [h]

/-- Witness for C8: with a succeeding insert, a failing notification and a
succeeding notification yield the same booking response, and the payload
goes to the hardcoded endpoint. -/
theorem booking_notification_best_effort_witness :
    (scheduleWithNotification (fun _ => .ok { wallMinutes := 840, tz := none })
      (fun _ => .ok (some "evtX")) (fun _ => false)
      { name := some "Bob", day := some "2024-06-02", time := some "2024-06-02T10:00:00" }).1
      = (scheduleWithNotification (fun _ => .ok { wallMinutes := 840, tz := none })
        (fun _ => .ok (some "evtX")) (fun _ => true)
        { name := some "Bob", day := some "2024-06-02", time := some "2024-06-02T10:00:00" }).1
    ∧ (scheduleWithNotification (fun _ => .ok { wallMinutes := 840, tz := none })
        (fun _ => .ok (some "evtX")) (fun _ => false)
        { name := some "Bob", day := some "2024-06-02", time := some "2024-06-02T10:00:00" }).2
      = some { url := downstreamAutomationUrl, patientName := "Bob",
               day := "2024-06-02", time := "2024-06-02T10:00:00", eventId := "evtX" } := by
  have h := booking_notification_best_effort
    (fun _ => .ok { wallMinutes := 840, tz := none })
    (fun _ => .ok (some "evtX")) (fun _ => false) (fun _ => true)
    { name := some "Bob", day := some "2024-06-02", time := some "2024-06-02T10:00:00" }
  exact ⟨h.2.1, h.2.2.1 (some "evtX") (by decide)⟩
